import Mathlib

/-!
Verification of the `statemachine-rs` crate.

A shallow embedding of the `statemachine-rs` crate (src/machine/mod.rs,
src/machine/builder.rs, src/machine/error.rs) together with proofs of the
specified properties.

The Rust machine exposes its operations through `&self` methods and mutates
`current_state` through a `RefCell<StateWrapper<State>>`. We embed this
interior mutability as explicit state passing: every method becomes a pure
function taking the machine and returning the method's result paired with the
machine as it stands after the call (i.e. the contents of the cell after all
`borrow_mut` writes performed by the method body).
-/

universe u v

/-- Embeds `StateWrapper` from src/machine/mod.rs: a newtype around the state used as
the payload of the `RefCell`. Rust declares it as a tuple struct
`StateWrapper(State)`; the single positional field `.0` is named `val` here. -/
structure StateWrapper (State : Type u) where
  val : State
  deriving Repr, DecidableEq

/-- Embeds `StateWrapper::new` from src/machine/mod.rs. -/
def StateWrapper.new {State : Type u} (state : State) : StateWrapper State :=
  ⟨state⟩

/-- Embeds `StateWrapper::get` from src/machine/mod.rs: returns a clone of the
wrapped state (cloning is the identity in the embedding). -/
def StateWrapper.get {State : Type u} (w : StateWrapper State) : State :=
  w.val

/-- Embeds `StateWrapper::set` from src/machine/mod.rs: overwrites the wrapped
state. In Rust this mutates through `&mut self`; here it returns the new
wrapper. -/
def StateWrapper.set {State : Type u} (_w : StateWrapper State) (state : State) :
    StateWrapper State :=
  ⟨state⟩

/-- Embeds `BasicStateMachine` from src/machine/mod.rs. `initial_state` is fixed for
the machine's lifetime; `current_state` is the `RefCell<StateWrapper<State>>`
cell (embedded as its contents); `transition` is the caller-supplied rule
`Fn(&State, Input) -> State`. The `PhantomData<Input>` marker field carries no
data and is dropped. -/
structure BasicStateMachine (State : Type u) (Input : Type v) where
  initial_state : State
  current_state : StateWrapper State
  transition : State → Input → State

/-- Embeds `StateMachine::current_state` for `BasicStateMachine`
(src/machine/mod.rs): `self.current_state.borrow().get()`. Returns a clone of
the current state; no `borrow_mut` occurs, so the machine after the call is
the machine before it. Named with a prime because `current_state` is the
field projection. -/
def BasicStateMachine.current_state' {State : Type u} {Input : Type v}
    (m : BasicStateMachine State Input) : State × BasicStateMachine State Input :=
  (m.current_state.get, m)

/-- Embeds `StateMachine::consume` for `BasicStateMachine` (src/machine/mod.rs):
computes `new_state = (self.transition)(&self.current_state.borrow().0, input)`,
commits it with `self.current_state.borrow_mut().set(new_state)`, then returns
`self.current_state()`. -/
def BasicStateMachine.consume {State : Type u} {Input : Type v}
    (m : BasicStateMachine State Input) (input : Input) :
    State × BasicStateMachine State Input :=
  let new_state := m.transition m.current_state.val input
  let m1 : BasicStateMachine State Input :=
    { m with current_state := m.current_state.set new_state }
  m1.current_state'

/-- Embeds `StateMachine::peek` for `BasicStateMachine` (src/machine/mod.rs):
`(self.transition)(&self.current_state.borrow().0, input)`. No `borrow_mut`
occurs, so the machine is returned unchanged. -/
def BasicStateMachine.peek {State : Type u} {Input : Type v}
    (m : BasicStateMachine State Input) (input : Input) :
    State × BasicStateMachine State Input :=
  (m.transition m.current_state.val input, m)

/-- Embeds `StateMachine::reset` for `BasicStateMachine` (src/machine/mod.rs):
`self.current_state.borrow_mut().set(self.initial_state.clone())`, then
returns `self.current_state()`. -/
def BasicStateMachine.reset {State : Type u} {Input : Type v}
    (m : BasicStateMachine State Input) :
    State × BasicStateMachine State Input :=
  let m1 : BasicStateMachine State Input :=
    { m with current_state := m.current_state.set m.initial_state }
  m1.current_state'

/-- Embeds `StateMachine::set` for `BasicStateMachine` (src/machine/mod.rs):
`self.current_state.borrow_mut().set(new_state)`. Returns `()` in Rust. -/
def BasicStateMachine.set {State : Type u} {Input : Type v}
    (m : BasicStateMachine State Input) (new_state : State) :
    Unit × BasicStateMachine State Input :=
  ((), { m with current_state := m.current_state.set new_state })

/-- Embeds `StateMachineError` as constructed at the only error site,
`StateMachineBuilder::build` in src/machine/builder.rs:
`StateMachineError::MissingField(field_name)` carrying the name of the first
unset required field. (The snapshot of src/machine/error.rs spells the lone
`String`-carrying variant `FailedToBuild`; builder.rs constructs it under the
name `MissingField`. The payload and the build-time behavior are identical
either way; the constructor keeps the name used at the call sites.) -/
inductive StateMachineError : Type where
  | MissingField (field : String)
  deriving Repr, DecidableEq

/-- Embeds `StateMachineBuilder` from src/machine/builder.rs: the three accumulated
`Option` fields. The `PhantomData<Input>` marker is dropped. -/
structure StateMachineBuilder (State : Type u) (Input : Type v) where
  initial_state : Option State
  current_state : Option State
  transition : Option (State → Input → State)

/-- Embeds `StateMachineBuilder::start` (= `Default::default`) from
src/machine/builder.rs: all three fields unset. -/
def StateMachineBuilder.start {State : Type u} {Input : Type v} :
    StateMachineBuilder State Input :=
  { initial_state := none, current_state := none, transition := none }

/-- Embeds `StateMachineBuilder::initial_state` from src/machine/builder.rs: records
the initial state, last write wins. Primed because the un-primed name is the
field projection. -/
def StateMachineBuilder.initial_state' {State : Type u} {Input : Type v}
    (b : StateMachineBuilder State Input) (state : State) :
    StateMachineBuilder State Input :=
  { b with initial_state := some state }

/-- Embeds `StateMachineBuilder::current_state` from src/machine/builder.rs: records
the starting-current-state override, last write wins. -/
def StateMachineBuilder.current_state' {State : Type u} {Input : Type v}
    (b : StateMachineBuilder State Input) (state : State) :
    StateMachineBuilder State Input :=
  { b with current_state := some state }

/-- Embeds `StateMachineBuilder::transition` from src/machine/builder.rs: records the
transition rule, last write wins. -/
def StateMachineBuilder.transition' {State : Type u} {Input : Type v}
    (b : StateMachineBuilder State Input) (next : State → Input → State) :
    StateMachineBuilder State Input :=
  { b with transition := some next }

/-- Embeds `StateMachineBuilder::build` from src/machine/builder.rs. Matches on
`(self.initial_state, self.transition)` in source order: `(Some, Some)`
succeeds; `(None, _)` fails naming `initial_state`; `(_, None)` fails naming
`transition`. On success the machine's starting current state is the override
if present, otherwise the initial state. -/
def StateMachineBuilder.build {State : Type u} {Input : Type v}
    (b : StateMachineBuilder State Input) :
    Except StateMachineError (BasicStateMachine State Input) :=
  match b.initial_state, b.transition with
  | some initial_state, some transition =>
      Except.ok
        { initial_state := initial_state
          current_state :=
            match b.current_state with
            | some state => StateWrapper.new state
            | none => StateWrapper.new initial_state
          transition := transition }
  | none, _ => Except.error (StateMachineError.MissingField "initial_state")
  | _, none => Except.error (StateMachineError.MissingField "transition")

/-- One call of the `StateMachine` runtime interface (src/machine/mod.rs),
with its argument when it takes one. `queryCurrent` is the `current_state()`
query. -/
inductive Op (State : Type u) (Input : Type v) : Type (max u v) where
  | queryCurrent : Op State Input
  | consume (input : Input) : Op State Input
  | peek (input : Input) : Op State Input
  | reset : Op State Input
  | set (state : State) : Op State Input

/-- The effect of one operation on the machine: the machine component of the
corresponding method's result. -/
def Op.apply {State : Type u} {Input : Type v} :
    Op State Input → BasicStateMachine State Input → BasicStateMachine State Input
  | .queryCurrent, m => m.current_state'.2
  | .consume i, m => (m.consume i).2
  | .peek i, m => (m.peek i).2
  | .reset, m => m.reset.2
  | .set s, m => (m.set s).2

/-- Runs a sequence of operations against one machine, threading the machine
through. -/
def runOps {State : Type u} {Input : Type v} :
    List (Op State Input) → BasicStateMachine State Input →
    BasicStateMachine State Input
  | [], m => m
  | op :: ops, m => runOps ops (op.apply m)

/-- A dynamic-borrow event on the machine's single
`RefCell<StateWrapper<State>>` cell: `acquireShared`/`releaseShared` delimit
the lifetime of a `Ref` obtained from `borrow()`, `acquireMut`/`releaseMut`
that of a `RefMut` obtained from `borrow_mut()`. -/
inductive BorrowEvent : Type where
  | acquireShared : BorrowEvent
  | releaseShared : BorrowEvent
  | acquireMut : BorrowEvent
  | releaseMut : BorrowEvent
  deriving Repr, DecidableEq

/-- The dynamic borrow flag of a `RefCell`: how many shared borrows are live
and whether a mutable borrow is live. -/
structure BorrowFlag : Type where
  shared : Nat
  mutActive : Bool
  deriving Repr, DecidableEq

/-- The borrow flag of a cell nobody is borrowing. -/
def BorrowFlag.idle : BorrowFlag :=
  { shared := 0, mutActive := false }

/-- Embeds `RefCell` dynamic-borrow semantics: `borrow()` panics (here: `none`) when
a mutable borrow is live, `borrow_mut()` panics when any borrow is live;
releases always succeed. -/
def BorrowEvent.step : BorrowEvent → BorrowFlag → Option BorrowFlag
  | .acquireShared, f =>
      if f.mutActive then none else some { f with shared := f.shared + 1 }
  | .releaseShared, f => some { f with shared := f.shared - 1 }
  | .acquireMut, f =>
      if f.mutActive || f.shared != 0 then none
      else some { f with mutActive := true }
  | .releaseMut, f => some { f with mutActive := false }

/-- Runs a list of borrow events, failing as soon as one panics. -/
def runBorrows : List BorrowEvent → BorrowFlag → Option BorrowFlag
  | [], f => some f
  | e :: es, f =>
      match e.step f with
      | none => none
      | some f1 => runBorrows es f1

/-- The sequence of borrow events each method body of
`impl StateMachine for BasicStateMachine` (src/machine/mod.rs) performs on
`self.current_state`, assuming the caller-supplied `transition` closure does
not itself touch the machine. Rust drops the temporary `Ref`/`RefMut` of each
statement at that statement's end, so:
`current_state()` is `borrow()` then drop; `consume` holds `borrow()` across
the rule call, drops it at the end of the `let`, then `borrow_mut()`+drop,
then the `current_state()` pair; `peek` is `borrow()` (held across the rule
call) then drop; `reset` is `borrow_mut()`+drop then the `current_state()`
pair; `set` is `borrow_mut()`+drop. -/
def borrowTrace {State : Type u} {Input : Type v} :
    Op State Input → List BorrowEvent
  | .queryCurrent => [.acquireShared, .releaseShared]
  | .consume _ =>
      [.acquireShared, .releaseShared, .acquireMut, .releaseMut,
       .acquireShared, .releaseShared]
  | .peek _ => [.acquireShared, .releaseShared]
  | .reset => [.acquireMut, .releaseMut, .acquireShared, .releaseShared]
  | .set _ => [.acquireMut, .releaseMut]


/-- Concatenation of the borrow traces of a sequence of operations, in call
order. -/
def opsBorrowTrace {State : Type u} {Input : Type v} :
    List (Op State Input) → List BorrowEvent
  | [] => []
  | op :: ops => borrowTrace op ++ opsBorrowTrace ops

theorem runBorrows_append (xs ys : List BorrowEvent) (f : BorrowFlag) :
    runBorrows (xs ++ ys) f = (runBorrows xs f).bind (runBorrows ys) := by
  induction xs generalizing f with
  | nil => rfl
  | cons e es ih =>
      cases h : e.step f with
      | none => simp [runBorrows, h]
      | some f1 => simp [runBorrows, h, ih]

theorem op_apply_preserves_fields {State : Type u} {Input : Type v}
    (op : Op State Input) (m : BasicStateMachine State Input) :
    (op.apply m).initial_state = m.initial_state ∧
    (op.apply m).transition = m.transition := by
  cases op <;> exact ⟨rfl, rfl⟩

/-- C1: `consume input` commits `transition currentState input` as the new
current state, and its return value equals what `current_state()` returns
immediately afterwards. -/
theorem consume_commits_rule {State : Type u} {Input : Type v}
    (m : BasicStateMachine State Input) (input : Input) :
    (m.consume input).2.current_state.val
        = m.transition m.current_state.val input ∧
    (m.consume input).1 = (m.consume input).2.current_state'.1 :=
  ⟨rfl, rfl⟩

/-- C2: `peek input` returns `transition currentState input` and leaves the
machine — in particular what `current_state()` returns — unchanged. -/
theorem peek_leaves_state_unchanged {State : Type u} {Input : Type v}
    (m : BasicStateMachine State Input) (input : Input) :
    (m.peek input).1 = m.transition m.current_state.val input ∧
    (m.peek input).2 = m ∧
    (m.peek input).2.current_state'.1 = m.current_state'.1 :=
  ⟨rfl, rfl, rfl⟩

/-- C3: `build` succeeds exactly when both `initial_state` and `transition`
are set; with `initial_state` unset it fails with `MissingField` naming
`initial_state` (also when both are unset), and with only `transition` unset
it fails with `MissingField` naming `transition`. -/
theorem build_requires_fields {State : Type u} {Input : Type v}
    (b : StateMachineBuilder State Input) :
    ((∃ m, b.build = Except.ok m) ↔
        b.initial_state.isSome ∧ b.transition.isSome) ∧
    (b.initial_state = none →
        b.build = Except.error (StateMachineError.MissingField "initial_state")) ∧
    (b.initial_state ≠ none → b.transition = none →
        b.build = Except.error (StateMachineError.MissingField "transition")) := by
  obtain ⟨i, c, t⟩ := b
  cases i <;> cases t <;> simp [StateMachineBuilder.build]

/-- Closed instance of `build_requires_fields`: the empty builder fails
naming `initial_state`. -/
theorem build_requires_fields_witness :
    (StateMachineBuilder.start : StateMachineBuilder Nat Nat).build
      = Except.error (StateMachineError.MissingField "initial_state") :=
  (build_requires_fields StateMachineBuilder.start).2.1 rfl

/-- C4: a machine built from `initial_state = some init` and a rule starts
at `init` when no `current_state` override was recorded, and at the override
when one was. -/
theorem build_starting_state {State : Type u} {Input : Type v}
    (init : State) (cur : Option State) (tr : State → Input → State) :
    ∃ m, (StateMachineBuilder.mk (some init) cur (some tr)).build
        = Except.ok m ∧
      (cur = none → m.current_state'.1 = init) ∧
      (∀ x, cur = some x → m.current_state'.1 = x) := by
  cases cur with
  | none =>
      refine ⟨_, rfl, fun _ => rfl, fun x hx => ?_⟩
      cases hx
  | some s =>
      refine ⟨_, rfl, fun h => ?_, fun x hx => ?_⟩
      · cases h
      · cases hx; rfl

/-- Closed instance of `build_starting_state`: with initial state `1` and
override `2`, the built machine starts at `2`. -/
theorem build_starting_state_witness :
    ∃ m : BasicStateMachine Nat Nat,
      (StateMachineBuilder.mk (some 1) (some 2)
          (some fun s i => s + i)).build = Except.ok m ∧
      m.current_state'.1 = 2 := by
  obtain ⟨m, hok, _, hover⟩ :=
    @build_starting_state Nat Nat 1 (some 2) (fun s i => s + i)
  exact ⟨m, hok, hover 2 rfl⟩

/-- C5: `reset` commits and returns the machine's recorded `initial_state`
(so a subsequent `current_state()` also returns it), and for a machine built
with a `current_state` override the value restored is the builder's recorded
initial state, never the override. -/
theorem reset_restores_initial {State : Type u} {Input : Type v}
    (m : BasicStateMachine State Input) :
    (m.reset.1 = m.initial_state ∧
     m.reset.2.current_state'.1 = m.initial_state ∧
     m.reset.2.current_state.val = m.initial_state) ∧
    (∀ (init : State) (cur : Option State) (tr : State → Input → State)
        (m1 : BasicStateMachine State Input),
      (StateMachineBuilder.mk (some init) cur (some tr)).build
          = Except.ok m1 →
      m1.reset.1 = init) := by
  refine ⟨⟨rfl, rfl, rfl⟩, fun init cur tr m1 h => ?_⟩
  cases cur <;> · cases h; rfl

/-- Closed instance of `reset_restores_initial`: a machine built with
initial state `0` and override `7` resets to `0`. -/
theorem reset_restores_initial_witness :
    ∃ m : BasicStateMachine Nat Nat,
      (StateMachineBuilder.mk (some 0) (some 7)
          (some fun s _ => s)).build = Except.ok m ∧
      m.reset.1 = 0 := by
  refine ⟨_, rfl, ?_⟩
  exact (reset_restores_initial (⟨0, ⟨7⟩, fun s _ => s⟩ :
    BasicStateMachine Nat Nat)).2 0 (some 7) (fun s _ => s) _ rfl

/-- C6: `set x` followed by `current_state()` yields exactly `x`, and the
effect of `set` is independent of the transition rule: replacing the rule by
any other rule gives the same resulting current state (the rule is never
invoked). -/
theorem set_forces_state {State : Type u} {Input : Type v}
    (m : BasicStateMachine State Input) (x : State) :
    (m.set x).2.current_state'.1 = x ∧
    ∀ tr : State → Input → State,
      (BasicStateMachine.set { m with transition := tr } x).2.current_state'.1
          = x ∧
      (BasicStateMachine.set { m with transition := tr } x).2
          = { (m.set x).2 with transition := tr } :=
  ⟨rfl, fun _ => ⟨rfl, rfl⟩⟩

/-- C7: from one and the same machine, `peek input` returns exactly the state
that `consume input` returns and commits. -/
theorem peek_consume_agree {State : Type u} {Input : Type v}
    (m : BasicStateMachine State Input) (input : Input) :
    (m.peek input).1 = (m.consume input).1 ∧
    (m.peek input).1 = (m.consume input).2.current_state.val :=
  ⟨rfl, rfl⟩

/-- C8: `reset` is idempotent: called twice in a row it returns the recorded
`initial_state` both times, and the machine after the second call equals the
machine after the first. -/
theorem reset_idempotent {State : Type u} {Input : Type v}
    (m : BasicStateMachine State Input) :
    m.reset.1 = m.initial_state ∧
    m.reset.2.reset.1 = m.initial_state ∧
    m.reset.2.reset.2 = m.reset.2 :=
  ⟨rfl, rfl, rfl⟩

/-- C9: over every sequence of operations, `initial_state` and `transition`
are never mutated, and the `peek` and `current_state()` calls leave the whole
machine (in particular the `current_state` cell) unchanged — so only
`consume`, `reset` and `set` ever mutate `current_state`. -/
theorem machine_field_invariants {State : Type u} {Input : Type v}
    (ops : List (Op State Input)) (m : BasicStateMachine State Input) :
    ((runOps ops m).initial_state = m.initial_state ∧
     (runOps ops m).transition = m.transition) ∧
    (∀ i, (m.peek i).2 = m) ∧ m.current_state'.2 = m := by
  refine ⟨?_, fun _ => rfl, rfl⟩
  induction ops generalizing m with
  | nil => exact ⟨rfl, rfl⟩
  | cons op ops ih =>
      have h1 := op_apply_preserves_fields op m
      have h2 := ih (op.apply m)
      exact ⟨h2.1.trans h1.1, h2.2.trans h1.2⟩

/-- C10: with a transition rule that does not re-enter the machine, the
dynamic borrow discipline of the `current_state` cell never panics: each
operation's borrow trace runs to completion from the idle flag and returns
the flag to idle, and hence so does any sequence of operations. -/
theorem refcell_borrows_never_panic {State : Type u} {Input : Type v}
    (ops : List (Op State Input)) :
    (∀ op : Op State Input,
      runBorrows (borrowTrace op) BorrowFlag.idle = some BorrowFlag.idle) ∧
    runBorrows (opsBorrowTrace ops) BorrowFlag.idle = some BorrowFlag.idle := by
  have h1 : ∀ op : Op State Input,
      runBorrows (borrowTrace op) BorrowFlag.idle = some BorrowFlag.idle := by
    intro op; cases op <;> rfl
  refine ⟨h1, ?_⟩
  induction ops with
  | nil => rfl
  | cons op ops ih =>
      simp [opsBorrowTrace, runBorrows_append, h1 op, ih]
